import Mathlib

/-
  Verification development for the alfad service supervisor.

  The definitions below are shallow embeddings of the Rust sources:
    * src/core/src/task.rs        — flat per-task state machine (TaskState,
      Respawn, Task::poll_internal, Task::run_command, Task::wait_for_terminate,
      Task::wait_for_dependencies / the wait_for! macro).
    * src/core/src/action.rs      — Action, SystemCommand, FromStr and Display.
    * src/core/src/perform_action.rs — perform, kill, kill_all, start.
    * src/core/src/command_line/complex.rs — insert_envvars.

  The repository contains divergent revisions: perform_action.rs is written
  against a newer task model (TaskState::Created / TaskState::Concluded(ExitReason))
  whose defining task.rs revision is not in the source tree; those few missing
  definitions are modelled from the specification and marked as such.
-/

deriving instance DecidableEq for Except

namespace Alfad

/-- Task state of src/core/src/task.rs (the flat revision shipped in src):
Waiting, Starting, Running(usize), Done, Failed, Terminating, Terminated,
Killed, Deactivated. -/
inductive TaskState where
  | waiting
  | starting
  | running (x : Nat)
  | done
  | failed
  | terminating
  | terminated
  | killed
  | deactivated
deriving DecidableEq, Repr

/-- Respawn policy of src/core/src/task.rs: `No` never retries, `Retry n`
retries up to n times with n = 0 meaning unlimited. -/
inductive Respawn where
  | no
  | retry (amount : Nat)
deriving DecidableEq, Repr

/-- Abstraction of a spawned child process: its pid and the eventual result of
`child.status().await` (`some true` = exited successfully, `some false` =
exited with failure, `none` = the status call itself errored). -/
structure ChildProc where
  pid : Nat
  exitOk : Option Bool
deriving DecidableEq, Repr

/-- Result of `command.spawn()` in Task::run_command
(src/core/src/task.rs lines 268-274). -/
inductive SpawnOutcome where
  | emptyCommand
  | spawnFailure
  | spawned (c : ChildProc)
deriving DecidableEq, Repr

/-- The fields of the driver and its context that Task::run_command and
Task::wait_for_terminate read and write: `self.state`, `self.process`, and the
pid recorded in the task's context. -/
structure RunSelf where
  state : TaskState
  process : Option ChildProc
  ctxPid : Option Nat
deriving DecidableEq, Repr

/-- Observable pid bookkeeping events of Task::run_command: recording the
child's pid in the context right after a spawn, and clearing it. -/
inductive PidEffect where
  | recordPid (pid : Nat)
  | clearPid
deriving DecidableEq, Repr

/-- Output of Task::run_command: the updated driver fields, the returned
TaskState, whether a new child was spawned during this call, and the pid
bookkeeping events in order. -/
structure RunResult where
  self : RunSelf
  ret : TaskState
  spawnedNew : Bool
  effects : List PidEffect
deriving DecidableEq, Repr

/-- The `match child.status().await` block of Task::run_command
(src/core/src/task.rs lines 282-292): if `self.state` is Terminating the state
becomes Terminated and the handle and pid are cleared (returning Done); on a
successful exit the state becomes Done and both are cleared; otherwise the
function returns Failed early, clearing nothing. -/
def awaitStatus (t : RunSelf) (c : ChildProc) (sp : Bool) (effs : List PidEffect) :
    RunResult :=
  if t.state = .terminating then
    ⟨{ t with state := .terminated, ctxPid := none, process := none },
      .done, sp, effs ++ [.clearPid]⟩
  else
    match c.exitOk with
    | some true =>
        ⟨{ t with state := .done, ctxPid := none, process := none },
          .done, sp, effs ++ [.clearPid]⟩
    | _ => ⟨t, .failed, sp, effs⟩

/-- Task::run_command (src/core/src/task.rs lines 264-293): reuse the stored
child handle if present; otherwise spawn, treating an empty command as Done and
a spawn error as Failed, and record the new child's pid in the context. -/
def runCommand (t : RunSelf) (sp : SpawnOutcome) : RunResult :=
  match t.process with
  | some c => awaitStatus t c false []
  | none =>
    match sp with
    | .emptyCommand => ⟨t, .done, false, []⟩
    | .spawnFailure => ⟨t, .failed, false, []⟩
    | .spawned c =>
        awaitStatus { t with ctxPid := some c.pid, process := some c } c true
          [.recordPid c.pid]

/-- Task::wait_for_terminate (src/core/src/task.rs lines 295-303): if a child
handle is stored, await it, set the state to Terminated and clear the handle
and the recorded pid; in every case return Terminated. -/
def waitForTerminate (t : RunSelf) : RunSelf × TaskState :=
  match t.process with
  | some _ =>
      ({ t with state := .terminated, ctxPid := none, process := none },
        .terminated)
  | none => (t, .terminated)

/-- Invariant relating the stored child handle and the pid recorded in the
context: one is present exactly when the other is. -/
def pidAgree (t : RunSelf) : Prop := t.process.isSome = t.ctxPid.isSome

instance (t : RunSelf) : Decidable (pidAgree t) := by
  unfold pidAgree; infer_instance

/-- Result of one arm of Task::respawn / Task::respawn_inner
(src/core/src/task.rs lines 223-241): either continue the driver loop in a new
state or break out (poll_internal then returns Pending). The attempts counter
after the call is carried alongside. -/
inductive Flow where
  | cont (s : TaskState) (attempts : Nat)
  | brk (s : TaskState) (attempts : Nat)
deriving DecidableEq, Repr

/-- Task::respawn_inner (src/core/src/task.rs lines 230-241): with a nonzero
cap, break once the recorded attempts reach the cap, otherwise increment the
counter and continue into Waiting; with a zero cap (unlimited) continue into
Waiting without touching the counter. -/
def respawnInner (amount attempts : Nat) : Flow :=
  if amount ≠ 0 then
    if attempts ≥ amount then .brk .deactivated attempts
    else .cont .waiting (attempts + 1)
  else .cont .waiting attempts

/-- Task::respawn (src/core/src/task.rs lines 223-228). -/
def respawn (cfg : Respawn) (state : TaskState) (attempts : Nat) : Flow :=
  match cfg with
  | .no => .brk state attempts
  | .retry amount => respawnInner amount attempts

/-- Environment of one iteration of the poll_internal loop: whether
wait_for_dependencies is ready, and the TaskState that running(x) returns,
which depends on child process execution and is therefore an oracle here. -/
structure PollEnv where
  depsReady : Bool
  runResult : Nat → TaskState

/-- Outcome of one iteration of the poll_internal loop: proceed to a next
state, or return Poll::Pending with the driver left in the given state. -/
inductive PollOutcome where
  | progress (next : TaskState) (attempts : Nat)
  | pend (finalState : TaskState) (attempts : Nat)
deriving DecidableEq, Repr

/-- The Failed/Terminated arm of the poll_internal loop
(src/core/src/task.rs lines 210-217): run respawn; on Continue adopt the new
state, on Break return Pending with the state unchanged (the Break payload is
discarded by the source). -/
def concludedArm (cfg : Respawn) (s : TaskState) (attempts : Nat) : PollOutcome :=
  match respawn cfg s attempts with
  | .cont s' a' => .progress s' a'
  | .brk _ a' => .pend s a'

/-- One iteration of the loop body of Task::poll_internal
(src/core/src/task.rs lines 196-220): Waiting waits for dependencies (ready
means Starting), Starting becomes Running(0), Running(x) takes the result of
running(x), Terminating becomes Terminated via wait_for_terminate, Failed and
Terminated go through respawn, and every other state (Done, Killed,
Deactivated) returns Pending unchanged. -/
def pollIteration (env : PollEnv) (cfg : Respawn) (s : TaskState)
    (attempts : Nat) : PollOutcome :=
  match s with
  | .waiting =>
      if env.depsReady then .progress .starting attempts
      else .pend .waiting attempts
  | .starting => .progress (.running 0) attempts
  | .running x => .progress (env.runResult x) attempts
  | .terminating => .progress .terminated attempts
  | .failed => concludedArm cfg .failed attempts
  | .terminated => concludedArm cfg .terminated attempts
  | s => .pend s attempts

/-- The state-and-attempts transition induced by one iteration of the
poll_internal loop (a Pending iteration leaves the pair as it pends). -/
def pollStep (env : PollEnv) (cfg : Respawn) (p : TaskState × Nat) :
    TaskState × Nat :=
  match pollIteration env cfg p.1 p.2 with
  | .progress s a => (s, a)
  | .pend s a => (s, a)

/-- Is the flat state Done (the pattern `TaskState::Done` of the wait_for!
invocation for `after` dependencies, src/core/src/task.rs line 244). -/
def isDone : TaskState → Bool
  | .done => true
  | _ => false

/-- Is the flat state any Running variant (the pattern `TaskState::Running(_)`
of the wait_for! invocation for `with` dependencies,
src/core/src/task.rs line 245). -/
def isRunningAny : TaskState → Bool
  | .running _ => true
  | _ => false

/-- The dependency lists of a TaskConfig that Task::wait_for_dependencies
consults (src/core/src/task.rs lines 77-82); `with` is a Lean keyword so the
field is named with_. -/
structure DepConfig where
  after : List String
  with_ : List String
deriving DecidableEq, Repr

/-- Whether a dependency name is satisfied in the context map for a given
state pattern (present and matching); the loop body of the wait_for! macro
continues past exactly the satisfied names. -/
def depMet (m : String → Option TaskState) (pred : TaskState → Bool)
    (n : String) : Bool :=
  match m n with
  | some st => pred st
  | none => false

/-- The wait_for! loop body (src/core/src/task.rs lines 119-154) for one
dependency list: walk the names in order and return the first one that blocks,
that is the first name that is absent from the context map or whose state does
not match the pattern; return none when every name is satisfied. -/
def firstBlocking (m : String → Option TaskState) (pred : TaskState → Bool)
    (l : List String) : Option String :=
  l.find? fun n => !depMet m pred n

/-- Outcome of one pass of Task::wait_for_dependencies: ready to proceed to
Starting, or blocked on a named `after` dependency (awaiting Done), or blocked
on a named `with` dependency (awaiting Running). -/
inductive WaitResult where
  | ready
  | blockedAfter (name : String)
  | blockedWith (name : String)
deriving DecidableEq, Repr

/-- Task::wait_for_dependencies (src/core/src/task.rs lines 243-247): first
run the wait_for! loop over the `after` list against the Done pattern, and
only if that completes run it over the `with` list against the Running
pattern; when both complete the driver proceeds (to Starting). -/
def waitForDependencies (cfg : DepConfig) (m : String → Option TaskState) :
    WaitResult :=
  match firstBlocking m isDone cfg.after with
  | some n => .blockedAfter n
  | none =>
    match firstBlocking m isRunningAny cfg.with_ with
    | some n => .blockedWith n
    | none => .ready

/- ------------------------------------------------------------------
   The newer task model used by src/core/src/perform_action.rs,
   src/core/src/command_line/complex.rs and src/core/src/builtin.
   ------------------------------------------------------------------ -/

/-- Modelled from the spec: the revision of task.rs defining this ExitReason
is absent from src (perform_action.rs and complex.rs use it); spec section 3
gives the conclusion reasons Done, Failed, Terminated, Deactivated. -/
inductive ExitReason where
  | done
  | failed
  | terminated
  | deactivated
deriving DecidableEq, Repr

/-- Modelled from the spec: the revision of task.rs defining this TaskState is
absent from src (perform_action.rs uses TaskState::Created and
TaskState::Concluded(ExitReason)); spec section 3 gives the variants Created,
Waiting, Running(i), Terminating, Concluded(reason). -/
inductive CtlTaskState where
  | created
  | waiting
  | running (i : Nat)
  | terminating
  | concluded (r : ExitReason)
deriving DecidableEq, Repr

/-- Modelled from the spec: TaskState::has_concluded is absent from src; the
spec glossary defines a Conclusion as any Concluded(_) variant. -/
def hasConcluded : CtlTaskState → Bool
  | .concluded _ => true
  | _ => false

/-- Modelled from the spec: TaskState::is_waiting is absent from src; it holds
exactly of the Waiting state. -/
def isWaiting : CtlTaskState → Bool
  | .waiting => true
  | _ => false

/-- The per-task context fields that perform_action.rs reads and writes: the
state and the respawn attempts counter. -/
structure CtlContext where
  state : CtlTaskState
  attempts : Nat
deriving DecidableEq, Repr

/-- Modelled from the spec: TaskContext::update_state of the newer task.rs
revision is absent from src; spec section 4.2 specifies that it atomically
replaces the current state (the waker fan-out has no observable effect on the
fields modelled here). -/
def updateState (c : CtlContext) (s : CtlTaskState) : CtlContext :=
  { c with state := s }

/-- Unix signals sent by the control plane. -/
inductive Sig where
  | sigterm
  | sigkill
deriving DecidableEq, Repr

/-- The kill routine of src/core/src/perform_action.rs lines 87-99: if the
task has concluded or is waiting, do nothing; otherwise send SIGKILL and set
Concluded(Terminated) when forced, or send SIGTERM and set Terminating when
not. Returns the updated context and the signals dispatched. -/
def kill (c : CtlContext) (force : Bool) : CtlContext × List Sig :=
  if hasConcluded c.state || isWaiting c.state then (c, [])
  else if force then
    (updateState c (.concluded .terminated), [.sigkill])
  else
    (updateState c .terminating, [.sigterm])

/-- The start routine of src/core/src/perform_action.rs lines 101-111: set the
state to Created when forced and to Waiting when not; nothing else is
touched. -/
def start (force : Bool) (c : CtlContext) : CtlContext :=
  updateState c (if force then .created else .waiting)

/- ------------------------------------------------------------------
   Actions: src/core/src/action.rs.
   ------------------------------------------------------------------ -/

/-- SystemCommand of src/core/src/action.rs lines 45-51. -/
inductive SystemCommand where
  | poweroff
  | restart
  | halt
deriving DecidableEq, Repr

/-- Action of src/core/src/action.rs lines 10-43. -/
inductive Action where
  | kill (task : String) (force : Bool)
  | deactivate (task : String) (force : Bool)
  | start (task : String) (force : Bool)
  | restart (task : String) (force : Bool)
  | system (cmd : SystemCommand)
deriving DecidableEq, Repr

/-- ActionError of src/core/src/action.rs lines 123-148 (the variants the
parser and perform can produce); errSyntax is the source's SyntaxError,
errActionNotFound its ActionNotFound, errTaskNotFound its TaskNotFound. -/
inductive ActionError where
  | errSyntax (s : String)
  | errActionNotFound (s : String)
  | errTaskNotFound (s : String)
deriving DecidableEq, Repr

/-- The space character, written by code point to keep literals plain. -/
def spaceChar : Char := Char.ofNat 32

/-- Rust str::split_once on a character, on the character list of a string:
split at the first occurrence, returning the parts before and after it, or
none when the character does not occur. -/
def splitOnceChar (c : Char) : List Char → Option (List Char × List Char)
  | [] => none
  | x :: xs =>
    if x = c then some ([], xs)
    else
      match splitOnceChar c xs with
      | some (l, r) => some (x :: l, r)
      | none => none

/-- Rust `s.split_once(' ')` as used by the Action parser. -/
def splitOnceSpace (s : String) : Option (String × String) :=
  (splitOnceChar spaceChar s.data).map fun p => (String.mk p.1, String.mk p.2)

/-- Display for SystemCommand (strum snake_case of the variant names,
src/core/src/action.rs lines 45-47). -/
def SystemCommand.toString : SystemCommand → String
  | .poweroff => "poweroff"
  | .restart => "restart"
  | .halt => "halt"

/-- FromStr for Action (src/core/src/action.rs lines 53-82): split at the
first space (no space is a syntax error); `deactivate` and
`force-deactivate` map to the Kill variant in the source; `system` matches
its payload against the three sub-commands; anything else is
ActionNotFound of the whole line. -/
def Action.fromStr (s : String) : Except ActionError Action :=
  match splitOnceSpace s with
  | none => .error (.errSyntax s)
  | some (a, payload) =>
    if a = "kill" then .ok (.kill payload false)
    else if a = "force-kill" then .ok (.kill payload true)
    else if a = "deactivate" then .ok (.kill payload false)
    else if a = "force-deactivate" then .ok (.kill payload true)
    else if a = "restart" then .ok (.restart payload false)
    else if a = "force-restart" then .ok (.restart payload true)
    else if a = "start" then .ok (.start payload false)
    else if a = "force-start" then .ok (.start payload true)
    else if a = "system" then
      if payload = "poweroff" then .ok (.system .poweroff)
      else if payload = "restart" then .ok (.system .restart)
      else if payload = "halt" then .ok (.system .halt)
      else .error (.errActionNotFound s)
    else .error (.errActionNotFound s)

/-- Display for Action (src/core/src/action.rs lines 84-121), reproduced
verbatim: note that the Start arm writes "start" with no trailing space
before the task name (lines 101-107 of the source). -/
def Action.toString : Action → String
  | .kill t f => (if f then "force-" else "") ++ "kill " ++ t
  | .deactivate t f => (if f then "force-" else "") ++ "deactivate " ++ t
  | .start t f => (if f then "force-" else "") ++ "start" ++ t
  | .restart t f => (if f then "force-" else "") ++ "restart " ++ t
  | .system c => "system " ++ c.toString

/- ------------------------------------------------------------------
   The control-plane handler: src/core/src/perform_action.rs.
   ------------------------------------------------------------------ -/

/-- The name→context map, as an association list in map order. -/
def CtxMap := List (String × CtlContext)

instance : DecidableEq CtxMap := by
  unfold CtxMap; infer_instance

/-- get_context of src/core/src/perform_action.rs lines 113-119. -/
def getContext (m : CtxMap) (name : String) : Except ActionError CtlContext :=
  match m.lookup name with
  | some c => .ok c
  | none => .error (.errTaskNotFound name)

/-- Replace the context stored under a name (the in-place mutation of the
shared context in the source). -/
def setTask (m : CtxMap) (name : String) (c : CtlContext) : CtxMap :=
  m.map fun p => if p.1 = name then (p.1, c) else p

/-- Observable effects of performing an action: a signal dispatched to a task,
the bounded (millisecond) wait for a task's conclusion inside kill_all, the
unbounded wait for a conclusion inside restart, and the reboot syscall with
its magic command argument. -/
inductive Effect where
  | signal (task : String) (s : Sig)
  | boundedWait (task : String) (ms : Nat)
  | waitConclusion (task : String)
  | reboot (magic : Nat)
deriving DecidableEq, Repr

/-- LINUX_REBOOT_CMD_POWER_OFF. -/
def LINUX_REBOOT_CMD_POWER_OFF : Nat := 0x4321FEDC

/-- LINUX_REBOOT_CMD_RESTART. -/
def LINUX_REBOOT_CMD_RESTART : Nat := 0x01234567

/-- LINUX_REBOOT_CMD_HALT. -/
def LINUX_REBOOT_CMD_HALT : Nat := 0xCDEF0123

/-- The task name excluded from kill_all
(src/core/src/perform_action.rs line 63). -/
def ctlDaemonName : String := "builtin::ctl::daemon"

/-- The per-task timeout of kill_all in milliseconds
(src/core/src/perform_action.rs line 70). -/
def KILL_ALL_TIMEOUT_MS : Nat := 1000

/-- kill_all (src/core/src/perform_action.rs lines 58-76): for every task in
the map except builtin::ctl::daemon, kill it with the given force flag and
await its conclusion, bounded by a 1000 ms timer after which the task is
abandoned. The concurrent join is modelled in map order; each task's kill is
applied to its context and the bounded wait is recorded as an effect. -/
def killAll (force : Bool) : CtxMap → CtxMap × List Effect
  | [] => ([], [])
  | (n, c) :: rest =>
    if n = ctlDaemonName then
      ((n, c) :: (killAll force rest).1, (killAll force rest).2)
    else
      ((n, (kill c force).1) :: (killAll force rest).1,
        ((kill c force).2.map (Effect.signal n ·) ++
            [.boundedWait n KILL_ALL_TIMEOUT_MS]) ++
          (killAll force rest).2)

/-- perform (src/core/src/perform_action.rs lines 17-52) for a parsed action:
Kill kills the named task; Deactivate kills it and then sets
Concluded(Deactivated); Restart kills it, awaits its conclusion and starts
it; Start starts it; System poweroff runs kill_all (non-forced) and then the
reboot syscall with the power-off command, while System restart and System
halt invoke the reboot syscall directly with their commands. -/
def perform (a : Action) (m : CtxMap) :
    Except ActionError (CtxMap × List Effect) :=
  match a with
  | .kill t f => do
      let c ← getContext m t
      let (c', sigs) := kill c f
      .ok (setTask m t c', sigs.map (Effect.signal t ·))
  | .deactivate t f => do
      let c ← getContext m t
      let (c', sigs) := kill c f
      let m' := setTask m t c'
      let c'' ← getContext m' t
      .ok (setTask m' t (updateState c'' (.concluded .deactivated)),
        sigs.map (Effect.signal t ·))
  | .restart t f => do
      let c ← getContext m t
      let (c', sigs) := kill c f
      let m' := setTask m t c'
      let c'' ← getContext m' t
      .ok (setTask m' t (start f c''),
        sigs.map (Effect.signal t ·) ++ [.waitConclusion t])
  | .start t f => do
      let c ← getContext m t
      .ok (setTask m t (start f c), [])
  | .system cmd =>
    match cmd with
    | .poweroff =>
        .ok ((killAll false m).1,
          (killAll false m).2 ++ [.reboot LINUX_REBOOT_CMD_POWER_OFF])
    | .restart => .ok (m, [.reboot LINUX_REBOOT_CMD_RESTART])
    | .halt => .ok (m, [.reboot LINUX_REBOOT_CMD_HALT])

/-- One control line end to end: parse, then perform
(the body of the control-channel loop). -/
def performLine (s : String) (m : CtxMap) :
    Except ActionError (CtxMap × List Effect) := do
  perform (← Action.fromStr s) m

/- ------------------------------------------------------------------
   Environment-variable expansion:
   src/core/src/command_line/complex.rs, insert_envvars.
   ------------------------------------------------------------------ -/

/-- The dollar character, written by code point to keep literals plain. -/
def dollarChar : Char := Char.ofNat 36

/-- The underscore character, written by code point to keep literals plain. -/
def underscoreChar : Char := Char.ofNat 95

/-- Membership in the character class of the FIND_ENVVAR regex
`[_a-zA-Z0-9]` (src/core/src/command_line/complex.rs line 29);
Char.isAlphanum covers exactly the ASCII ranges a-z, A-Z, 0-9. -/
def isIdentChar (c : Char) : Bool :=
  c.isAlphanum || c = underscoreChar

/-- One pass of `FIND_ENVVAR.replace_all` over a character list
(src/core/src/command_line/complex.rs lines 133-137): scan left to right; at a
dollar sign collect the maximal nonempty run of identifier characters and
substitute the environment's value for that name (replacement text is not
rescanned within the pass); a dollar sign not followed by an identifier
character is kept. The accumulator holds the reversed identifier characters
collected since the last unmatched dollar sign, or none when outside a
candidate match. -/
def substAux (env : String → String) : List Char → Option (List Char) →
    List Char
  | [], none => []
  | [], some acc =>
    if acc.isEmpty then [dollarChar]
    else (env (String.mk acc.reverse)).data
  | c :: rest, none =>
    if c = dollarChar then substAux env rest (some [])
    else c :: substAux env rest none
  | c :: rest, some acc =>
    if isIdentChar c then substAux env rest (some (c :: acc))
    else if acc.isEmpty then
      if c = dollarChar then dollarChar :: substAux env rest (some [])
      else dollarChar :: c :: substAux env rest none
    else
      (env (String.mk acc.reverse)).data ++
        (if c = dollarChar then substAux env rest (some [])
         else c :: substAux env rest none)

/-- One substitution pass over a string (the body of one iteration of the
insert_envvars loop). -/
def substEnv (env : String → String) (s : String) : String :=
  String.mk (substAux env s.data none)

/-- MAX_ENVVAR_RECURSION (src/core/src/command_line/complex.rs line 26). -/
def MAX_ENVVAR_RECURSION : Nat := 100

/-- The fuelled loop of insert_envvars
(src/core/src/command_line/complex.rs lines 130-144): run one substitution
pass; return the result as soon as a pass changes nothing; with the fuel
exhausted fail with the maximum-recursion error (modelled as Except.error). -/
def insertEnvvarsGo (env : String → String) : Nat → String →
    Except Unit String
  | 0, _ => .error ()
  | fuel + 1, h =>
    let nw := substEnv env h
    if nw = h then .ok nw else insertEnvvarsGo env fuel nw

/-- insert_envvars (src/core/src/command_line/complex.rs lines 130-144):
iterate the substitution pass up to MAX_ENVVAR_RECURSION times. -/
def insertEnvvars (env : String → String) (s : String) : Except Unit String :=
  insertEnvvarsGo env MAX_ENVVAR_RECURSION s

/- ------------------------------------------------------------------
   Helper lemmas (shared).
   ------------------------------------------------------------------ -/

/-- The wait_for! loop completes on a list exactly when every name in it is
present in the context map with a matching state. -/
theorem firstBlocking_none_iff (m : String → Option TaskState)
    (pred : TaskState → Bool) (l : List String) :
    firstBlocking m pred l = none ↔ ∀ n ∈ l, depMet m pred n = true := by
  unfold firstBlocking
  rw [List.find?_eq_none]
  simp

/-- The wait_for! loop blocks only on a name from its list, and that name is
unsatisfied in the context map. -/
theorem firstBlocking_some (m : String → Option TaskState)
    (pred : TaskState → Bool) (l : List String) (n : String)
    (h : firstBlocking m pred l = some n) :
    n ∈ l ∧ depMet m pred n = false := by
  unfold firstBlocking at h
  refine ⟨List.mem_of_find?_eq_some h, ?_⟩
  have := List.find?_some h
  simpa using this

/-- A non-forced kill dispatches either nothing or a single SIGTERM. -/
theorem kill_nonforced_sigs (c : CtlContext) :
    (kill c false).2 = [] ∨ (kill c false).2 = [Sig.sigterm] := by
  unfold kill
  split_ifs <;> simp_all

/-- Every effect recorded by a non-forced kill_all pass concerns a task of
the map other than the control daemon, and is either the 1000 ms bounded
conclusion wait or a SIGTERM dispatch. -/
theorem killAll_effect_mem (m : CtxMap) (e : Effect)
    (he : e ∈ (killAll false m).2) :
    ∃ t, t ≠ ctlDaemonName ∧ t ∈ m.map Prod.fst ∧
      (e = .boundedWait t KILL_ALL_TIMEOUT_MS ∨ e = .signal t .sigterm) := by
  induction m with
  | nil => simp [killAll] at he
  | cons p rest ih =>
    obtain ⟨n, c⟩ := p
    simp only [killAll] at he
    by_cases hn : n = ctlDaemonName
    · rw [if_pos hn] at he
      obtain ⟨t, ht1, ht2, ht3⟩ := ih he
      exact ⟨t, ht1, by simp [List.mem_map] at ht2 ⊢; tauto, ht3⟩
    · rw [if_neg hn] at he
      simp only [List.mem_append, List.mem_map, List.mem_singleton] at he
      rcases he with (⟨s, hs, rfl⟩ | rfl) | he
      · refine ⟨n, hn, by simp, Or.inr ?_⟩
        rcases kill_nonforced_sigs c with h0 | h1
        · rw [h0] at hs; cases hs
        · rw [h1] at hs
          simp at hs
          rw [hs]
      · exact ⟨n, hn, by simp, Or.inl rfl⟩
      · obtain ⟨t, ht1, ht2, ht3⟩ := ih he
        exact ⟨t, ht1, by simp [List.mem_map] at ht2 ⊢; tauto, ht3⟩

/-- Specification of the fuelled insert_envvars loop: an Ok result is a fixed
point of the substitution pass reached in fewer iterations than the fuel, and
the loop errors exactly when no iterate below the fuel is a fixed point. -/
theorem insertEnvvarsGo_spec (env : String → String) (fuel : Nat) (s : String) :
    (∀ r, insertEnvvarsGo env fuel s = .ok r →
      substEnv env r = r ∧ ∃ n, n < fuel ∧ r = (substEnv env)^[n] s) ∧
    (insertEnvvarsGo env fuel s = .error () ↔
      ∀ n, n < fuel →
        substEnv env ((substEnv env)^[n] s) ≠ (substEnv env)^[n] s) := by
  induction fuel generalizing s with
  | zero =>
    constructor
    · intro r h; cases h
    · simp [insertEnvvarsGo]
  | succ fuel ih =>
    by_cases hs : substEnv env s = s
    · constructor
      · intro r h
        simp only [insertEnvvarsGo, if_pos hs] at h
        cases h
        refine ⟨by rw [hs, hs], 0, Nat.succ_pos fuel, by simp [hs]⟩
      · simp only [insertEnvvarsGo, if_pos hs]
        constructor
        · intro h; cases h
        · intro h
          exact absurd (by simpa using hs) (h 0 (Nat.succ_pos fuel))
    · have hstep : insertEnvvarsGo env (fuel + 1) s =
          insertEnvvarsGo env fuel (substEnv env s) := by
        simp [insertEnvvarsGo, hs]
      constructor
      · intro r h
        rw [hstep] at h
        obtain ⟨hfix, n, hn, hr⟩ := (ih (substEnv env s)).1 r h
        refine ⟨hfix, n + 1, Nat.succ_lt_succ hn, ?_⟩
        rw [hr, Function.iterate_succ_apply]
      · rw [hstep, (ih (substEnv env s)).2]
        constructor
        · intro h n hn
          match n with
          | 0 => simpa using hs
          | m + 1 =>
            rw [Function.iterate_succ_apply]
            exact h m (Nat.lt_of_succ_lt_succ hn)
        · intro h n hn
          have := h (n + 1) (Nat.succ_lt_succ hn)
          rwa [Function.iterate_succ_apply] at this

/- ------------------------------------------------------------------
   Concrete fixtures used by individual claims.
   ------------------------------------------------------------------ -/

/-- Poll environment fixture for claim C3 (dependencies not ready; running
returns Done). -/
def c3Env : PollEnv := ⟨false, fun _ => .done⟩

/-- Context-map fixture for claim C5: one task x currently in Running(0). -/
def c5Map : CtxMap := [("x", ⟨.running 0, 0⟩)]

/-- Context-map fixture for claim C6: one task y currently in Running(0). -/
def c6Map : CtxMap := [("y", ⟨.running 0, 0⟩)]

/-- Context fixture for claim C7: a concluded task with a nonzero respawn
attempts counter. -/
def c7Ctx : CtlContext := ⟨.concluded .failed, 2⟩

/-- Dependency configuration fixture for claim C8: one after dependency a and
one with dependency w. -/
def c8Cfg : DepConfig := ⟨["a"], ["w"]⟩

/-- Context-map fixture for claim C8: both dependencies exist and are
Waiting, so neither the Done nor the Running predicate holds. -/
def c8Map : String → Option TaskState := fun n =>
  if n = "a" then some .waiting
  else if n = "w" then some .waiting
  else none

/-- Dependency configuration fixture for the C8 witness: no after
dependencies, one with dependency w. -/
def c8WCfg : DepConfig := ⟨[], ["w"]⟩

/-- Context-map fixture for the C8 witness: an empty context map. -/
def c8WMap : String → Option TaskState := fun _ => none

/-- Environment fixture for claim C9 (every variable unset, expanding to the
empty string, as env::var(..).unwrap_or_default() does). -/
def c9Env : String → String := fun _ => ""

/- ------------------------------------------------------------------
   Claim theorems.
   ------------------------------------------------------------------ -/

/-- C1: Task::run_command spawns a new child only when the stored handle is
None; a spawn records the child's pid in the context; the handle and the
recorded pid agree (both present or both absent) across run_command and
wait_for_terminate, so both have been cleared whenever a subsequent spawn can
occur (and under that agreement the recorded pid is indeed None at every
spawn). -/
theorem c1_single_child (t : RunSelf) (sp : SpawnOutcome) :
    ((runCommand t sp).spawnedNew = true →
      t.process = none ∧ (pidAgree t → t.ctxPid = none)) ∧
    (∀ c, sp = .spawned c → t.process = none →
      PidEffect.recordPid c.pid ∈ (runCommand t sp).effects) ∧
    (pidAgree t → pidAgree (runCommand t sp).self) ∧
    (pidAgree t → pidAgree (waitForTerminate t).1) := by
  obtain ⟨st, proc, pid⟩ := t
  refine ⟨?_, ?_, ?_, ?_⟩
  · intro h
    rcases proc with _ | c
    · refine ⟨rfl, ?_⟩
      intro hag
      rcases pid with _ | p
      · rfl
      · exact absurd hag.symm (by simp [pidAgree])
    · exfalso
      by_cases hterm : st = TaskState.terminating
      · simp [runCommand, awaitStatus, hterm] at h
      · rcases hex : c.exitOk with _ | b
        · simp [runCommand, awaitStatus, hterm, hex] at h
        · cases b <;> simp [runCommand, awaitStatus, hterm, hex] at h
  · intro c hc hproc
    subst hc
    rcases hproc' : proc with _ | c0
    · by_cases hterm : st = TaskState.terminating
      · simp [runCommand, awaitStatus, hterm]
      · rcases hex : c.exitOk with _ | b
        · simp [runCommand, awaitStatus, hterm, hex]
        · cases b <;> simp [runCommand, awaitStatus, hterm, hex]
    · rw [hproc'] at hproc
      cases hproc
  · intro hag
    rcases proc with _ | c
    · have hpid : pid = none := by
        rcases pid with _ | p
        · rfl
        · exact absurd hag.symm (by simp [pidAgree])
      subst hpid
      rcases sp with _ | _ | c'
      · simpa [runCommand] using hag
      · simpa [runCommand] using hag
      · by_cases hterm : st = TaskState.terminating
        · simp [runCommand, awaitStatus, hterm, pidAgree]
        · rcases hex : c'.exitOk with _ | b
          · simp [runCommand, awaitStatus, hterm, hex, pidAgree]
          · cases b <;> simp [runCommand, awaitStatus, hterm, hex, pidAgree]
    · by_cases hterm : st = TaskState.terminating
      · simp [runCommand, awaitStatus, hterm, pidAgree]
      · rcases hex : c.exitOk with _ | b
        · simpa [runCommand, awaitStatus, hterm, hex, pidAgree] using hag
        · cases b
          · simpa [runCommand, awaitStatus, hterm, hex, pidAgree] using hag
          · simp [runCommand, awaitStatus, hterm, hex, pidAgree]
  · intro hag
    rcases proc with _ | c
    · simpa [waitForTerminate, pidAgree] using hag
    · simp [waitForTerminate, pidAgree]

/-- C1 witness: a task with no stored handle and no recorded pid spawns a
child with pid 7, records it, and preserves the handle/pid agreement. -/
theorem c1_single_child_witness :
    ((runCommand ⟨.running 0, none, none⟩
        (.spawned ⟨7, some true⟩)).spawnedNew = true →
      (RunSelf.mk (.running 0) none none).process = none ∧
        (pidAgree ⟨.running 0, none, none⟩ →
          (RunSelf.mk (.running 0) none none).ctxPid = none)) ∧
    (∀ c, SpawnOutcome.spawned ⟨7, some true⟩ = .spawned c →
      (RunSelf.mk (.running 0) none none).process = none →
      PidEffect.recordPid c.pid ∈
        (runCommand ⟨.running 0, none, none⟩
          (.spawned ⟨7, some true⟩)).effects) ∧
    (pidAgree ⟨.running 0, none, none⟩ →
      pidAgree (runCommand ⟨.running 0, none, none⟩
        (.spawned ⟨7, some true⟩)).self) ∧
    (pidAgree ⟨.running 0, none, none⟩ →
      pidAgree (waitForTerminate ⟨.running 0, none, none⟩).1) :=
  c1_single_child ⟨.running 0, none, none⟩ (.spawned ⟨7, some true⟩)

/-- C2: the Deactivated state is absorbing for the driver loop: one
poll_internal iteration from Deactivated pends with the state and the
attempts counter unchanged, for every respawn policy, and so does every
number of further iterations; in particular respawn never fires from it. -/
theorem c2_deactivated_absorbing (env : PollEnv) (cfg : Respawn) (a : Nat) :
    pollIteration env cfg .deactivated a = .pend .deactivated a ∧
    ∀ k, (pollStep env cfg)^[k] (.deactivated, a) = (.deactivated, a) := by
  have h1 : pollIteration env cfg .deactivated a = .pend .deactivated a := rfl
  refine ⟨h1, ?_⟩
  intro k
  have hfix : pollStep env cfg (.deactivated, a) = (.deactivated, a) := by
    simp [pollStep, h1]
  exact Function.iterate_fixed hfix k

/-- C3 counterexample: the claim as stated fails on the code at two concrete
inputs. From the Done conclusion (a concluded state with reason other than
Deactivated) with policy Retry(2) and attempts 0 < 2, the driver does not
increment attempts and re-enter Waiting but pends in Done; and from Failed
with Retry(0) the driver re-enters Waiting without incrementing the
counter. -/
theorem c3_counterexample :
    pollIteration c3Env (.retry 2) .done 0 = .pend .done 0 ∧
    (PollOutcome.pend .done 0 ≠ .progress .waiting 1) ∧
    pollIteration c3Env (.retry 0) .failed 0 = .progress .waiting 0 ∧
    (PollOutcome.progress .waiting 0 ≠ .progress .waiting 1) := by
  refine ⟨rfl, by decide, rfl, by decide⟩

/-- C3 amended: for a task with policy Retry(max), whenever the driver
reaches Failed or Terminated (the conclusions that feed respawn; Done and
Killed pend without respawning), it re-enters Waiting if max = 0 (attempts
untouched) or attempts < max (attempts incremented); with max > 0, once
attempts has reached max the driver pends in its terminal state, and every
further iteration leaves it there, so after the max+1-th consecutive such
conclusion no further spawn occurs. -/
theorem c3_retry_amended (env : PollEnv) (s : TaskState)
    (hs : s = .failed ∨ s = .terminated) (maxr a : Nat) :
    pollIteration env (.retry 0) s a = .progress .waiting a ∧
    (a < maxr → pollIteration env (.retry maxr) s a =
      .progress .waiting (a + 1)) ∧
    (0 < maxr → maxr ≤ a →
      pollIteration env (.retry maxr) s a = .pend s a) ∧
    (0 < maxr → ∀ k,
      (pollStep env (.retry maxr))^[k] (s, maxr) = (s, maxr)) := by
  have harm : ∀ b : Nat,
      pollIteration env (.retry maxr) s b = concludedArm (.retry maxr) s b := by
    intro b
    rcases hs with rfl | rfl <;> rfl
  have harm0 : pollIteration env (.retry 0) s a = concludedArm (.retry 0) s a := by
    rcases hs with rfl | rfl <;> rfl
  refine ⟨?_, ?_, ?_, ?_⟩
  · rw [harm0]
    simp [concludedArm, respawn, respawnInner]
  · intro hlt
    rw [harm a]
    have hne : maxr ≠ 0 := by omega
    have hge : ¬ a ≥ maxr := by omega
    simp [concludedArm, respawn, respawnInner, hne, hge]
  · intro hpos hge
    rw [harm a]
    have hne : maxr ≠ 0 := by omega
    simp [concludedArm, respawn, respawnInner, hne, hge]
  · intro hpos k
    have hfix : pollStep env (.retry maxr) (s, maxr) = (s, maxr) := by
      have h3 : pollIteration env (.retry maxr) s maxr = .pend s maxr := by
        rw [harm maxr]
        have hne : maxr ≠ 0 := by omega
        simp [concludedArm, respawn, respawnInner, hne]
      simp [pollStep, h3]
    exact Function.iterate_fixed hfix k

/-- C3 witness: with Retry(2), from Failed with attempts 1 < 2 the driver
increments the counter and re-enters Waiting. -/
theorem c3_retry_amended_witness :
    pollIteration c3Env (.retry 2) .failed 1 = .progress .waiting 2 :=
  (c3_retry_amended c3Env .failed (Or.inl rfl) 2 1).2.1 (by omega)

/-- C4 evaluation at the failing inputs: formatting Start writes no space
between the verb and the task name, so its canonical string "starta" fails to
re-parse (a syntax error); and formatting Deactivate yields "deactivate b",
which re-parses as the Kill variant, not Deactivate. A variant whose
round-trip does hold (force-kill) is shown for contrast. -/
theorem c4_roundtrip_failure :
    Action.toString (.start "a" false) = "starta" ∧
    Action.fromStr (Action.toString (.start "a" false)) =
      .error (.errSyntax "starta") ∧
    Action.toString (.deactivate "b" false) = "deactivate b" ∧
    Action.fromStr (Action.toString (.deactivate "b" false)) =
      .ok (.kill "b" false) ∧
    (Except.ok (Action.deactivate "b" false) ≠
      (.ok (.kill "b" false) : Except ActionError Action)) ∧
    Action.fromStr (Action.toString (.kill "c" true)) = .ok (.kill "c" true) := by
  refine ⟨rfl, by decide, rfl, by decide, by decide, by decide⟩

/-- C5 evaluation at the failing input: the control line "deactivate x" is
parsed as the Kill variant (not a distinct verb), so performing it on a task
in Running(0) merely sends SIGTERM and sets Terminating; the state never
becomes Concluded(Deactivated), even though Display renders the Deactivate
variant as exactly this line. -/
theorem c5_deactivate_parsed_as_kill :
    Action.fromStr "deactivate x" = .ok (.kill "x" false) ∧
    performLine "deactivate x" c5Map =
      .ok ([("x", ⟨.terminating, 0⟩)], [.signal "x" .sigterm]) ∧
    (CtlTaskState.terminating ≠ .concluded .deactivated) ∧
    Action.toString (.deactivate "x" false) = "deactivate x" := by
  refine ⟨by decide, by decide, by decide, rfl⟩

/-- C6 counterexample: performing "system halt" (and "system restart") on a
map holding a running task invokes the reboot syscall directly: the effect
trace is exactly the reboot with the corresponding magic command, with no
kill, no bounded conclusion wait, and the task's context untouched —
contradicting the claim that all three system commands first run the kill-all
phase. -/
theorem c6_counterexample :
    performLine "system halt" c6Map =
      .ok (c6Map, [.reboot LINUX_REBOOT_CMD_HALT]) ∧
    performLine "system restart" c6Map =
      .ok (c6Map, [.reboot LINUX_REBOOT_CMD_RESTART]) ∧
    c6Map.lookup "y" = some ⟨.running 0, 0⟩ ∧
    (∀ t : String, ∀ s : Sig,
      (Effect.reboot LINUX_REBOOT_CMD_HALT) ≠ .signal t s) ∧
    (∀ t : String, ∀ ms : Nat,
      (Effect.reboot LINUX_REBOOT_CMD_HALT) ≠ .boundedWait t ms) := by
  refine ⟨by decide, by decide, by decide, ?_, ?_⟩ <;> intro t x hc <;> cases hc

/-- C6 amended: only "system poweroff" runs the kill-all phase — non-forced,
skipping builtin::ctl::daemon, each task's conclusion awaited under the
1000 ms bound — and invokes the reboot syscall after it; "system restart" and
"system halt" invoke the reboot syscall directly with their commands. Every
effect of the kill-all phase concerns a non-daemon task of the map and is
either the 1000 ms bounded wait or a SIGTERM dispatch. -/
theorem c6_system_amended (m : CtxMap) :
    perform (.system .poweroff) m =
      .ok ((killAll false m).1,
        (killAll false m).2 ++ [.reboot LINUX_REBOOT_CMD_POWER_OFF]) ∧
    perform (.system .restart) m = .ok (m, [.reboot LINUX_REBOOT_CMD_RESTART]) ∧
    perform (.system .halt) m = .ok (m, [.reboot LINUX_REBOOT_CMD_HALT]) ∧
    (∀ e ∈ (killAll false m).2,
      ∃ t, t ≠ ctlDaemonName ∧ t ∈ m.map Prod.fst ∧
        (e = .boundedWait t KILL_ALL_TIMEOUT_MS ∨ e = .signal t .sigterm)) ∧
    KILL_ALL_TIMEOUT_MS = 1000 := by
  exact ⟨rfl, rfl, rfl, fun e he => killAll_effect_mem m e he, rfl⟩

/-- C6 witness: on the fixture map, the kill-all phase of poweroff consists of
the SIGTERM to y followed by the 1000 ms bounded wait for y; each effect
satisfies the amended description. -/
theorem c6_system_amended_witness :
    perform (.system .poweroff) c6Map =
      .ok ((killAll false c6Map).1,
        (killAll false c6Map).2 ++ [.reboot LINUX_REBOOT_CMD_POWER_OFF]) ∧
    (∃ t, t ≠ ctlDaemonName ∧ t ∈ c6Map.map Prod.fst ∧
      ((Effect.signal "y" .sigterm) = .boundedWait t KILL_ALL_TIMEOUT_MS ∨
        (Effect.signal "y" .sigterm) = .signal t .sigterm)) :=
  ⟨(c6_system_amended c6Map).1,
    (c6_system_amended c6Map).2.2.2.1 (.signal "y" .sigterm) (by decide)⟩

/-- C7 counterexample: on a concluded context with attempts = 2, the start
routine with force = true sets the state to Created — not Running(0) — and
leaves the attempts counter at 2 instead of resetting it to zero. -/
theorem c7_counterexample :
    start true c7Ctx = ⟨.created, 2⟩ ∧
    (CtlContext.mk .created 2 ≠ ⟨.running 0, 0⟩) ∧
    (start true c7Ctx).attempts ≠ 0 ∧
    start false c7Ctx = ⟨.waiting, 2⟩ := by
  refine ⟨rfl, by decide, by decide, rfl⟩

/-- C7 amended: for every context, start without force sets the state to
Waiting and forced start sets it to Created; in both cases the respawn
attempts counter is left unchanged. -/
theorem c7_start_amended (c : CtlContext) :
    (start false c).state = .waiting ∧
    (start false c).attempts = c.attempts ∧
    (start true c).state = .created ∧
    (start true c).attempts = c.attempts := by
  exact ⟨rfl, rfl, rfl, rfl⟩

/-- C8 counterexample: with after = [a] and with = [w], both mapped to
Waiting, the dependency-wait pass blocks on the after-name a (awaiting Done)
while the with-dependency w is still unmet — so the driver does not wait for
all with predicates before any after predicate. -/
theorem c8_counterexample :
    waitForDependencies c8Cfg c8Map = .blockedAfter "a" ∧
    "a" ∈ c8Cfg.after ∧
    "a" ∉ c8Cfg.with_ ∧
    "w" ∈ c8Cfg.with_ ∧
    depMet c8Map isRunningAny "w" = false := by
  refine ⟨by decide, by decide, by decide, by decide, by decide⟩

/-- C8 amended: in every dependency-wait pass the driver waits for the after
predicates (Done) before the with predicates (Running): it blocks on a with
name only once every after dependency is satisfied; when it blocks on an
after name that name is an unsatisfied after dependency; and it proceeds only
when both lists are fully satisfied. -/
theorem c8_wait_order_amended (cfg : DepConfig)
    (m : String → Option TaskState) :
    (∀ n, waitForDependencies cfg m = .blockedWith n →
      (∀ x ∈ cfg.after, depMet m isDone x = true) ∧
        n ∈ cfg.with_ ∧ depMet m isRunningAny n = false) ∧
    (∀ n, waitForDependencies cfg m = .blockedAfter n →
      n ∈ cfg.after ∧ depMet m isDone n = false) ∧
    (waitForDependencies cfg m = .ready →
      (∀ x ∈ cfg.after, depMet m isDone x = true) ∧
        ∀ x ∈ cfg.with_, depMet m isRunningAny x = true) := by
  unfold waitForDependencies
  rcases hafter : firstBlocking m isDone cfg.after with _ | na
  · rcases hwith : firstBlocking m isRunningAny cfg.with_ with _ | nw
    · refine ⟨?_, ?_, ?_⟩
      · intro n h; cases h
      · intro n h; cases h
      · intro _
        exact ⟨(firstBlocking_none_iff m isDone cfg.after).mp hafter,
          (firstBlocking_none_iff m isRunningAny cfg.with_).mp hwith⟩
    · refine ⟨?_, ?_, ?_⟩
      · intro n h
        cases h
        obtain ⟨hmem, hdep⟩ := firstBlocking_some m isRunningAny cfg.with_ nw hwith
        exact ⟨(firstBlocking_none_iff m isDone cfg.after).mp hafter, hmem, hdep⟩
      · intro n h; cases h
      · intro h; cases h
  · refine ⟨?_, ?_, ?_⟩
    · intro n h; cases h
    · intro n h
      cases h
      exact firstBlocking_some m isDone cfg.after na hafter
    · intro h; cases h

/-- C8 witness: with no after dependencies and the single with dependency w
absent from the map, the pass blocks on w and the amended theorem certifies
that every after dependency (vacuously) is satisfied and w is unmet. -/
theorem c8_wait_order_amended_witness :
    (∀ x ∈ c8WCfg.after, depMet c8WMap isDone x = true) ∧
      "w" ∈ c8WCfg.with_ ∧ depMet c8WMap isRunningAny "w" = false :=
  (c8_wait_order_amended c8WCfg c8WMap).1 "w" (by decide)

/-- C9: environment-variable expansion either returns a string that is a
fixed point of the substitution pass, reached as an iterate below
MAX_ENVVAR_RECURSION = 100 of the pass on the input, or fails with the
maximum-recursion error; and it fails exactly when no iterate below 100 is a
fixed point. -/
theorem c9_envvar_fixed_point (env : String → String) (s : String) :
    (∀ r, insertEnvvars env s = .ok r →
      substEnv env r = r ∧
        ∃ n, n < MAX_ENVVAR_RECURSION ∧ r = (substEnv env)^[n] s) ∧
    (insertEnvvars env s = .error () ↔
      ∀ n, n < MAX_ENVVAR_RECURSION →
        substEnv env ((substEnv env)^[n] s) ≠ (substEnv env)^[n] s) :=
  insertEnvvarsGo_spec env MAX_ENVVAR_RECURSION s

/-- C9 witness: expanding "$A" with every variable unset returns the empty
string, which is a fixed point of the pass and an iterate of it below 100. -/
theorem c9_envvar_fixed_point_witness :
    substEnv c9Env "" = "" ∧
      ∃ n, n < MAX_ENVVAR_RECURSION ∧ "" = (substEnv c9Env)^[n] "$A" :=
  (c9_envvar_fixed_point c9Env "$A").1 "" (by decide)

/-- C10: killing a task whose state is Waiting or any concluded state is a
no-op, forced or not: no signal is dispatched and the context (state and
attempts) is unchanged. -/
theorem c10_kill_noop (c : CtlContext) (force : Bool)
    (h : hasConcluded c.state = true ∨ isWaiting c.state = true) :
    kill c force = (c, []) := by
  unfold kill
  rcases h with h | h <;> simp [h]

/-- C10 witness: force-kill of a Waiting task and plain kill of a
Concluded(Done) task both leave the context unchanged and send nothing. -/
theorem c10_kill_noop_witness :
    kill ⟨.waiting, 0⟩ true = (⟨.waiting, 0⟩, []) ∧
    kill ⟨.concluded .done, 3⟩ false = (⟨.concluded .done, 3⟩, []) :=
  ⟨c10_kill_noop ⟨.waiting, 0⟩ true (Or.inr rfl),
    c10_kill_noop ⟨.concluded .done, 3⟩ false (Or.inl rfl)⟩

end Alfad
